import Mathlib

/-!
# Verification of the OTA update protocol (edge_deploy.sh / redeploy.sh)

Shallow embedding of the update protocol generated by
`iot_ota_cli/main.py` (`get_original_init_script`): the Agent is the
generated `edge_deploy.sh` script (lines 1011-1093 of main.py) and the
Publisher is the generated `redeploy.sh` script (lines 1098-1139).

Cryptography is modelled symbolically: SHA-256 is an injective digest
constructor and an RSA signature is a pair (key id, digest); `verify`
succeeds exactly when the signature was produced with the matching
private key over the same digest.  Under this model any change to a
signed object (in particular a single-bit flip) changes its digest and
makes verification fail, which is the standard collision-resistance /
unforgeability idealisation.
-/

namespace OTA

/-- Symbolic SHA-256 digest of a byte string (injective by construction,
modelling collision resistance). -/
structure Digest where
  data : String
deriving DecidableEq, Repr

/-- `openssl dgst -sha256 -binary` on a file's bytes. -/
def sha256 (s : String) : Digest := ⟨s⟩

/-- Private half of the RSA keypair (`ota_private.pem`). -/
structure PrivKey where
  keyId : Nat
deriving DecidableEq, Repr

/-- Public half of the RSA keypair (`ota_public.pem`). -/
structure PubKey where
  keyId : Nat
deriving DecidableEq, Repr

/-- A detached signature: symbolically, the signing key id together with
the digest that was signed. -/
structure Sig where
  keyId : Nat
  dgst : Digest
deriving DecidableEq, Repr

/-- `openssl pkeyutl -sign -inkey PRIVATE_KEY -in digest`. -/
def sign (k : PrivKey) (d : Digest) : Sig := ⟨k.keyId, d⟩

/-- Successful `openssl pkeyutl -verify -pubin -inkey pub -sigfile sig -in digest`:
the signature was made by the matching private key over the same digest. -/
def verify (k : PubKey) (s : Sig) (d : Digest) : Bool :=
  s.keyId == k.keyId && s.dgst == d

/-- The verification command as the script runs it: if the public key file
is missing or unreadable, `openssl pkeyutl -verify` fails (non-zero exit),
which the script's `if !` observes exactly like a signature mismatch. -/
def opensslVerify (k : Option PubKey) (s : Sig) (d : Digest) : Bool :=
  match k with
  | none => false
  | some k => verify k s d

/-! ## The `grep "last_build" file | cut -d'"' -f2` pipeline

`edge_deploy.sh` extracts the timestamp from a version file with
`grep "last_build" FILE | cut -d'"' -f2` (main.py lines 1031 and 1039).
We model file contents as `String`s and implement the pipeline over
character lists. -/

/-- Split a character list at every occurrence of `delim` (the behaviour
of reading a file as lines when `delim = '\n'`, and of `cut -d` fields). -/
def splitOnCharAux (delim : Char) : List Char → List Char → List (List Char)
  | [], acc => [acc.reverse]
  | c :: cs, acc =>
      if c = delim then acc.reverse :: splitOnCharAux delim cs []
      else splitOnCharAux delim cs (c :: acc)

/-- The lines of a file's contents. -/
def linesOf (s : String) : List (List Char) := splitOnCharAux '\n' s.data []

/-- Does `p` begin the list `s`? -/
def beginsWith : List Char → List Char → Bool
  | [], _ => true
  | _ :: _, [] => false
  | p :: ps, c :: cs => p == c && beginsWith ps cs

/-- Does `pat` occur contiguously inside `s`?  (`grep` with a literal
pattern selects the lines where this holds.) -/
def containsSeq (pat : List Char) : List Char → Bool
  | [] => beginsWith pat []
  | c :: cs => beginsWith pat (c :: cs) || containsSeq pat cs

/-- `cut -d'"' -f2` on one line: field 2 of the line split at `"`;
a line with no delimiter is printed whole (cut's default without `-s`). -/
def cutQuote2 (line : List Char) : List Char :=
  match splitOnCharAux '"' line [] with
  | [] => line
  | [_] => line
  | _ :: f :: _ => f

/-- Join output lines with newlines (the shell's `$(...)` strips the
final trailing newline, keeping inner ones). -/
def joinNl : List (List Char) → List Char
  | [] => []
  | [l] => l
  | l :: ls => l ++ '\n' :: joinNl ls

/-- `grep "last_build" FILE | cut -d'"' -f2` applied to file contents. -/
def grepCut (content : String) : String :=
  ⟨joinNl (((linesOf content).filter (containsSeq "last_build".data)).map cutQuote2)⟩

/-- The epoch timestamp the script starts from (main.py line 1029). -/
def epochTs : String := "1970-01-01T00:00:00Z"

/-- Lines 1029-1032 of main.py: `LOCAL_VERSION_TS="1970-01-01T00:00:00Z"`,
then if `version.yaml` exists, `LOCAL_VERSION_TS=$(grep "last_build"
"version.yaml" | cut -d'"' -f2)`.  (Note: the pipeline ends in `cut`,
which exits 0 even when `grep` matched nothing, so `set -e` does not
abort on a corrupted file; the variable just receives the cut output.) -/
def readLocalTs (versionFile : Option String) : String :=
  match versionFile with
  | none => epochTs
  | some content => grepCut content

/-! ## Device and store state -/

/-- The Deployment Unit: the docker container named
`${PRG_FILE_BASENAME}_ota_app`.  `image` records which artifact bundle
(image tar) the container was created from. -/
structure Container where
  image : String
  running : Bool
deriving DecidableEq, Repr

/-- The device's working directory state that survives a run: the
durable `version.yaml` Local Version Record and the container. -/
structure DeviceState where
  versionFile : Option String
  container : Option Container
deriving DecidableEq, Repr

/-- The remote S3 objects under the per-project path.  `none` means the
corresponding `wget` fails (object missing or network error). -/
structure RemoteStore where
  manifest : Option String
  bundle : Option String
  bundleSig : Option Sig
  manifestSig : Option Sig
deriving DecidableEq, Repr

/-- Outcomes of docker commands that depend on the external docker
daemon: whether `docker start`, `docker load` and `docker run` succeed. -/
structure Env where
  startOk : Bool
  loadOk : Bool
  runOk : Bool
deriving DecidableEq, Repr

/-- Which temporary downloaded/derived files exist in the workdir when
the script terminates: `remote_version.yaml`, `${IMAGE_TAR}`,
`${IMAGE_TAR}.sig`, `remote_version.yaml.sig`, `remote.sha256`,
`image.sha256`.  `wget -q -O FILE` creates `FILE` even when the download
fails, and `openssl dgst ... > FILE` creates `FILE`. -/
structure Temps where
  remoteManifest : Bool
  imageTar : Bool
  imageSigFile : Bool
  remoteManifestSigFile : Bool
  remoteSha : Bool
  imageSha : Bool
deriving DecidableEq, Repr

/-- No temporary files left behind. -/
def Temps.clean : Temps := ⟨false, false, false, false, false, false⟩

/-- All six temporary files present (state after both verifications,
before any cleanup). -/
def Temps.allPresent : Temps := ⟨true, true, true, true, true, true⟩

/-- Externally visible actions of one run, in order. -/
inductive Event
  | fetchManifest
  | fetchBundle
  | fetchBundleSig
  | fetchManifestSig
  | verifyManifestSig
  | verifyBundleSig
  | dockerStart
  | dockerStop
  | dockerRm
  | dockerLoad
  | dockerRun
deriving DecidableEq, Repr

/-- Terminal outcome of one `edge_deploy.sh` run. -/
inductive Outcome
  | NoOp
  | Updated
  | FailedFetch
  | FailedFetchArtifact
  | RejectedManifestSig
  | RejectedBundleSig
  | FailedStart
deriving DecidableEq, Repr

/-- The script's exit code for each outcome: the NoOp path ends in
`exit 0` and the success path falls off the end of the script (status of
the last `echo`, 0); every failure path exits non-zero (`exit 1` or the
status of the failing command under `set -e`). -/
def exitCode : Outcome → Nat
  | .NoOp => 0
  | .Updated => 0
  | _ => 1

/-- Result of one run: outcome, durable device state, leftover temporary
files, and the trace of external actions. -/
structure RunResult where
  outcome : Outcome
  state : DeviceState
  temps : Temps
  events : List Event
deriving DecidableEq, Repr

/-- `docker ps -q -f name="^/${CONTAINER_NAME}$" | grep -q .`:
the container exists and is running. -/
def containerRunning (s : DeviceState) : Bool :=
  match s.container with
  | some c => c.running
  | none => false

/-- `docker start $CONTAINER_NAME`: succeeds only when the container
exists, and then marks it running. -/
def startContainer (s : DeviceState) : DeviceState :=
  match s.container with
  | some c => { s with container := some { c with running := true } }
  | none => s

/-! ## `edge_deploy.sh`, section by section -/

/-- Lines 1041-1049: the up-to-date branch.  Prints "Already up to
date.", self-heals with `docker start ... || echo "Failed to start
container."` when the container is not running (the `||` swallows a
start failure), removes `remote_version.yaml` and exits 0. -/
def noopSection (env : Env) (s : DeviceState) : RunResult :=
  if containerRunning s then
    { outcome := .NoOp, state := s, temps := Temps.clean
      , events := [.fetchManifest] }
  else
    { outcome := .NoOp
      , state := if env.startOk then startContainer s else s
      , temps := Temps.clean
      , events := [.fetchManifest, .dockerStart] }

/-- Lines 1077-1091: stop/remove the old container (only if one exists),
`docker load`, `docker run -d --restart always`, then commit
(`mv remote_version.yaml version.yaml`) and clean up
(`rm -f *.tar *.sig *.sha256`).  Under `set -e`, a `docker load` or
`docker run` failure aborts the script before the commit, after the old
container has already been removed and with all six temporary files
still on disk. -/
def deploySection (rman bundle : String) (env : Env) (s : DeviceState) : RunResult :=
  let ev0 : List Event :=
    [.fetchManifest, .fetchBundle, .fetchBundleSig, .fetchManifestSig,
     .verifyManifestSig, .verifyBundleSig]
  let ev1 : List Event :=
    if s.container.isSome then ev0 ++ [.dockerStop, .dockerRm] else ev0
  let s1 : DeviceState := { s with container := none }
  if env.loadOk = false then
    { outcome := .FailedStart, state := s1, temps := Temps.allPresent
      , events := ev1 ++ [.dockerLoad] }
  else if env.runOk = false then
    { outcome := .FailedStart, state := s1, temps := Temps.allPresent
      , events := ev1 ++ [.dockerLoad, .dockerRun] }
  else
    { outcome := .Updated
      , state := { versionFile := some rman
                   , container := some { image := bundle, running := true } }
      , temps := Temps.clean
      , events := ev1 ++ [.dockerLoad, .dockerRun] }

/-- Lines 1059-1074: verify the manifest signature, then the bundle
signature.  Each failure removes the temporaries created so far
(`rm -f remote* *.tar *.sig` resp. `rm -f remote* *.tar *.sig image.sha256`)
and exits 1 without touching the container or `version.yaml`. -/
def verifySection (pk : Option PubKey) (rman bundle : String)
    (msig bsig : Sig) (env : Env) (s : DeviceState) : RunResult :=
  if opensslVerify pk msig (sha256 rman) = false then
    { outcome := .RejectedManifestSig, state := s, temps := Temps.clean
      , events := [.fetchManifest, .fetchBundle, .fetchBundleSig,
                   .fetchManifestSig, .verifyManifestSig] }
  else if opensslVerify pk bsig (sha256 bundle) = false then
    { outcome := .RejectedBundleSig, state := s, temps := Temps.clean
      , events := [.fetchManifest, .fetchBundle, .fetchBundleSig,
                   .fetchManifestSig, .verifyManifestSig, .verifyBundleSig] }
  else
    deploySection rman bundle env s

/-- Lines 1053-1056: the three unguarded `wget -q -O` downloads (bundle,
bundle signature, manifest signature).  Under `set -e` a failure aborts
the script immediately, with no cleanup; `wget -O` has already created
the (empty) target file of the failed download and every earlier one. -/
def downloadSection (pk : Option PubKey) (store : RemoteStore)
    (rman : String) (env : Env) (s : DeviceState) : RunResult :=
  match store.bundle with
  | none =>
      { outcome := .FailedFetchArtifact, state := s
        , temps := ⟨true, true, false, false, false, false⟩
        , events := [.fetchManifest, .fetchBundle] }
  | some bundle =>
    match store.bundleSig with
    | none =>
        { outcome := .FailedFetchArtifact, state := s
          , temps := ⟨true, true, true, false, false, false⟩
          , events := [.fetchManifest, .fetchBundle, .fetchBundleSig] }
    | some bsig =>
      match store.manifestSig with
      | none =>
          { outcome := .FailedFetchArtifact, state := s
            , temps := ⟨true, true, true, true, false, false⟩
            , events := [.fetchManifest, .fetchBundle, .fetchBundleSig,
                         .fetchManifestSig] }
      | some msig => verifySection pk rman bundle msig bsig env s

/-- One run of `edge_deploy.sh` (main.py lines 1011-1093).  Reads the
local timestamp, fetches `remote_version.yaml` (failure → `exit 1` with
the empty `wget -O` target left behind), compares the two timestamps as
strings, and takes the NoOp branch or the download/verify/deploy path. -/
def applyUpdate (pk : Option PubKey) (store : RemoteStore) (env : Env)
    (s : DeviceState) : RunResult :=
  match store.manifest with
  | none =>
      { outcome := .FailedFetch, state := s
        , temps := ⟨true, false, false, false, false, false⟩
        , events := [.fetchManifest] }
  | some rman =>
    if grepCut rman = readLocalTs s.versionFile then noopSection env s
    else downloadSection pk store rman env s

/-! ## `redeploy.sh`: the publisher -/

/-- A UTC instant with second precision, as `date -u` reads the clock. -/
structure UTCTime where
  year : Nat
  month : Nat
  day : Nat
  hour : Nat
  minute : Nat
  second : Nat
deriving DecidableEq, Repr

/-- Two-digit zero padding (`date` `%m`, `%d`, `%H`, `%M`, `%S`). -/
def pad2 (n : Nat) : String := if n < 10 then "0" ++ toString n else toString n

/-- Four-digit zero padding (`date` `%Y`). -/
def pad4 (n : Nat) : String :=
  if n < 10 then "000" ++ toString n
  else if n < 100 then "00" ++ toString n
  else if n < 1000 then "0" ++ toString n
  else toString n

/-- `date -u +"%Y-%m-%dT%H:%M:%SZ"` (main.py line 1126): RFC3339 with
second precision. -/
def renderRFC3339 (t : UTCTime) : String :=
  pad4 t.year ++ "-" ++ pad2 t.month ++ "-" ++ pad2 t.day ++ "T" ++
  pad2 t.hour ++ ":" ++ pad2 t.minute ++ ":" ++ pad2 t.second ++ "Z"

/-- `echo "last_build: \"$CUR_TS\"" > version.yaml` (main.py line 1127):
the manifest is a single key-value line (echo appends a newline). -/
def manifestFor (ts : String) : String := "last_build: \"" ++ ts ++ "\"\n"

/-- An object uploaded to the store: a text file or a signature file. -/
inductive StoreObject
  | text : String → StoreObject
  | sigObj : Sig → StoreObject
deriving DecidableEq, Repr

/-- `redeploy.sh` lines 1122-1135: digest and sign the image tar, write
the manifest with the current UTC instant, digest and sign it, and
upload the four objects to `s3://$S3_BUCKET/$DIRECTORY_NAME/`, as a list
of (path, object) pairs in upload order. -/
def publishUploads (bucket dir baseName : String) (priv : PrivKey)
    (bundle : String) (now : UTCTime) : List (String × StoreObject) :=
  let m := manifestFor (renderRFC3339 now)
  let p := "s3://" ++ bucket ++ "/" ++ dir ++ "/"
  [ (p ++ baseName ++ ".tar", .text bundle)
  , (p ++ baseName ++ ".tar.sig", .sigObj (sign priv (sha256 bundle)))
  , (p ++ "version.yaml", .text m)
  , (p ++ "version.yaml.sig", .sigObj (sign priv (sha256 m))) ]

/-- The remote store as the agent sees it after a publish. -/
def publish (priv : PrivKey) (bundle : String) (now : UTCTime) : RemoteStore :=
  let m := manifestFor (renderRFC3339 now)
  { manifest := some m
  , bundle := some bundle
  , bundleSig := some (sign priv (sha256 bundle))
  , manifestSig := some (sign priv (sha256 m)) }

/-! ## Helper lemmas -/

lemma verify_eq_true_iff (k : Nat) (sg : Sig) (d : Digest) :
    verify ⟨k⟩ sg d = true ↔ sg = sign ⟨k⟩ d := by
  obtain ⟨ki, dg⟩ := sg
  simp [verify, sign, Sig.mk.injEq, Bool.and_eq_true, and_comm]

lemma opensslVerify_some (k : PubKey) (sg : Sig) (d : Digest) :
    opensslVerify (some k) sg d = verify k sg d := rfl

lemma opensslVerify_none (sg : Sig) (d : Digest) :
    opensslVerify none sg d = false := rfl

lemma applyUpdate_eq_noop (pk : Option PubKey) (store : RemoteStore) (env : Env)
    (s : DeviceState) (rman : String) (hm : store.manifest = some rman)
    (heq : grepCut rman = readLocalTs s.versionFile) :
    applyUpdate pk store env s = noopSection env s := by
  simp [applyUpdate, hm, heq]

lemma applyUpdate_eq_verify (pk : Option PubKey) (store : RemoteStore) (env : Env)
    (s : DeviceState) (rman b : String) (msig bsig : Sig)
    (hm : store.manifest = some rman) (hb : store.bundle = some b)
    (hbs : store.bundleSig = some bsig) (hms : store.manifestSig = some msig)
    (hdiff : grepCut rman ≠ readLocalTs s.versionFile) :
    applyUpdate pk store env s = verifySection pk rman b msig bsig env s := by
  simp [applyUpdate, hm, if_neg hdiff, downloadSection, hb, hbs, hms]

lemma noopSection_outcome (env : Env) (s : DeviceState) :
    (noopSection env s).outcome = Outcome.NoOp := by
  unfold noopSection
  split <;> rfl

lemma startContainer_versionFile (s : DeviceState) :
    (startContainer s).versionFile = s.versionFile := by
  obtain ⟨vf, cont⟩ := s
  cases cont <;> rfl

lemma startContainer_image (s : DeviceState) :
    (startContainer s).container.map Container.image
      = s.container.map Container.image := by
  obtain ⟨vf, cont⟩ := s
  cases cont <;> rfl

lemma noopSection_versionFile (env : Env) (s : DeviceState) :
    (noopSection env s).state.versionFile = s.versionFile := by
  unfold noopSection
  split
  · rfl
  · dsimp only
    split
    · exact startContainer_versionFile s
    · rfl

lemma noopSection_image (env : Env) (s : DeviceState) :
    (noopSection env s).state.container.map Container.image
      = s.container.map Container.image := by
  unfold noopSection
  split
  · rfl
  · dsimp only
    split
    · exact startContainer_image s
    · rfl

lemma noopSection_state_of_running (env : Env) (s : DeviceState)
    (h : containerRunning s = true) :
    (noopSection env s).state = s := by
  unfold noopSection
  rw [if_pos h]

/-! ## Claim theorems -/

/-- C1: whenever the remote manifest timestamp differs from the local record
and the fetched manifest signature is not the genuine private-key signature of
the fetched manifest bytes, or the fetched bundle signature is not the genuine
signature of the fetched bundle bytes (which covers any single-bit tampering of
manifest, bundle, or either signature: under the injective-digest model every
such change breaks exactly this equation), the run of `edge_deploy.sh`
terminates as Rejected with exit code 1, every downloaded temporary object is
discarded, and both the Deployment Unit and the Local Version Record are left
unchanged. -/
theorem tamper_rejected (k : Nat) (store : RemoteStore) (env : Env)
    (s : DeviceState) (rman b : String) (msig bsig : Sig)
    (hm : store.manifest = some rman) (hb : store.bundle = some b)
    (hbs : store.bundleSig = some bsig) (hms : store.manifestSig = some msig)
    (hdiff : grepCut rman ≠ readLocalTs s.versionFile)
    (htam : msig ≠ sign ⟨k⟩ (sha256 rman) ∨ bsig ≠ sign ⟨k⟩ (sha256 b)) :
    ((applyUpdate (some ⟨k⟩) store env s).outcome = Outcome.RejectedManifestSig ∨
      (applyUpdate (some ⟨k⟩) store env s).outcome = Outcome.RejectedBundleSig) ∧
    (applyUpdate (some ⟨k⟩) store env s).state = s ∧
    (applyUpdate (some ⟨k⟩) store env s).temps = Temps.clean ∧
    exitCode (applyUpdate (some ⟨k⟩) store env s).outcome = 1 := by
  rw [applyUpdate_eq_verify (some ⟨k⟩) store env s rman b msig bsig hm hb hbs hms hdiff]
  by_cases hv : msig = sign ⟨k⟩ (sha256 rman)
  · have hb2 : bsig ≠ sign ⟨k⟩ (sha256 b) := by
      rcases htam with h | h
      · exact absurd hv h
      · exact h
    have h1 : opensslVerify (some ⟨k⟩) msig (sha256 rman) = true := by
      rw [opensslVerify_some, verify_eq_true_iff]
      exact hv
    have h2 : opensslVerify (some ⟨k⟩) bsig (sha256 b) = false := by
      rw [opensslVerify_some]
      exact Bool.eq_false_iff.mpr (fun hc => hb2 ((verify_eq_true_iff k bsig (sha256 b)).mp hc))
    simp [verifySection, h1, h2, exitCode]
  · have h1 : opensslVerify (some ⟨k⟩) msig (sha256 rman) = false := by
      rw [opensslVerify_some]
      exact Bool.eq_false_iff.mpr (fun hc => hv ((verify_eq_true_iff k msig (sha256 rman)).mp hc))
    simp [verifySection, h1, exitCode]

/-- Witness for C1: a concrete run whose bundle signature was replaced by a
signature over different bytes is rejected with no state change. -/
theorem tamper_rejected_witness :
    ((applyUpdate (some ⟨0⟩)
        ⟨some (manifestFor "2024-01-01T00:00:00Z"), some "payload",
         some ⟨0, sha256 "payloadX"⟩,
         some (sign ⟨0⟩ (sha256 (manifestFor "2024-01-01T00:00:00Z")))⟩
        ⟨true, true, true⟩ ⟨none, none⟩).outcome = Outcome.RejectedManifestSig ∨
      (applyUpdate (some ⟨0⟩)
        ⟨some (manifestFor "2024-01-01T00:00:00Z"), some "payload",
         some ⟨0, sha256 "payloadX"⟩,
         some (sign ⟨0⟩ (sha256 (manifestFor "2024-01-01T00:00:00Z")))⟩
        ⟨true, true, true⟩ ⟨none, none⟩).outcome = Outcome.RejectedBundleSig) ∧
    (applyUpdate (some ⟨0⟩)
        ⟨some (manifestFor "2024-01-01T00:00:00Z"), some "payload",
         some ⟨0, sha256 "payloadX"⟩,
         some (sign ⟨0⟩ (sha256 (manifestFor "2024-01-01T00:00:00Z")))⟩
        ⟨true, true, true⟩ ⟨none, none⟩).state = ⟨none, none⟩ ∧
    (applyUpdate (some ⟨0⟩)
        ⟨some (manifestFor "2024-01-01T00:00:00Z"), some "payload",
         some ⟨0, sha256 "payloadX"⟩,
         some (sign ⟨0⟩ (sha256 (manifestFor "2024-01-01T00:00:00Z")))⟩
        ⟨true, true, true⟩ ⟨none, none⟩).temps = Temps.clean ∧
    exitCode (applyUpdate (some ⟨0⟩)
        ⟨some (manifestFor "2024-01-01T00:00:00Z"), some "payload",
         some ⟨0, sha256 "payloadX"⟩,
         some (sign ⟨0⟩ (sha256 (manifestFor "2024-01-01T00:00:00Z")))⟩
        ⟨true, true, true⟩ ⟨none, none⟩).outcome = 1 :=
  tamper_rejected 0 _ ⟨true, true, true⟩ ⟨none, none⟩
    (manifestFor "2024-01-01T00:00:00Z") "payload"
    (sign ⟨0⟩ (sha256 (manifestFor "2024-01-01T00:00:00Z"))) ⟨0, sha256 "payloadX"⟩
    rfl rfl rfl rfl (by decide) (Or.inr (by decide))

/-- C8: a publish run serializes the current UTC instant (rendered by
`date -u +"%Y-%m-%dT%H:%M:%SZ"`, i.e. RFC3339 with second precision) into the
manifest, signs the SHA-256 digest of the manifest bytes and of the bundle
bytes independently with the private key, uploads exactly the bundle, the two
signatures and the manifest under the stable per-project path
`s3://$S3_BUCKET/$DIRECTORY_NAME/` (the path list does not depend on the
bundle or the instant), and each detached signature verifies with only the
matching public key and digest. -/
theorem publish_uploads_signed (bucket dir base : String) (k : Nat)
    (bundle : String) (now : UTCTime) :
    (publishUploads bucket dir base ⟨k⟩ bundle now).map Prod.fst =
      ["s3://" ++ bucket ++ "/" ++ dir ++ "/" ++ base ++ ".tar",
       "s3://" ++ bucket ++ "/" ++ dir ++ "/" ++ base ++ ".tar.sig",
       "s3://" ++ bucket ++ "/" ++ dir ++ "/" ++ "version.yaml",
       "s3://" ++ bucket ++ "/" ++ dir ++ "/" ++ "version.yaml.sig"] ∧
    (∀ bundle2 : String, ∀ now2 : UTCTime,
      (publishUploads bucket dir base ⟨k⟩ bundle2 now2).map Prod.fst =
        (publishUploads bucket dir base ⟨k⟩ bundle now).map Prod.fst) ∧
    (publishUploads bucket dir base ⟨k⟩ bundle now).map Prod.snd =
      [StoreObject.text bundle,
       StoreObject.sigObj (sign ⟨k⟩ (sha256 bundle)),
       StoreObject.text (manifestFor (renderRFC3339 now)),
       StoreObject.sigObj (sign ⟨k⟩ (sha256 (manifestFor (renderRFC3339 now))))] ∧
    verify ⟨k⟩ (sign ⟨k⟩ (sha256 bundle)) (sha256 bundle) = true ∧
    verify ⟨k⟩ (sign ⟨k⟩ (sha256 (manifestFor (renderRFC3339 now))))
      (sha256 (manifestFor (renderRFC3339 now))) = true := by
  refine ⟨by simp [publishUploads], fun _ _ => by simp [publishUploads],
    by simp [publishUploads], ?_, ?_⟩ <;> simp [verify, sign]

/-- C9: the version comparison of `edge_deploy.sh` is plain string equality of
the two `grep | cut` extractions, so any correctly signed release whose
timestamp merely differs from the local record — in particular a strictly
older one — is downloaded, verified and applied: the run ends `Updated`, the
Local Version Record becomes the remote manifest, and the container now runs
the fetched bundle.  There is no downgrade protection. -/
theorem string_compare_rollback (k : Nat) (store : RemoteStore) (env : Env)
    (s : DeviceState) (rman b : String)
    (hm : store.manifest = some rman) (hb : store.bundle = some b)
    (hbs : store.bundleSig = some (sign ⟨k⟩ (sha256 b)))
    (hms : store.manifestSig = some (sign ⟨k⟩ (sha256 rman)))
    (hdiff : grepCut rman ≠ readLocalTs s.versionFile)
    (hload : env.loadOk = true) (hrun : env.runOk = true) :
    (applyUpdate (some ⟨k⟩) store env s).outcome = Outcome.Updated ∧
    (applyUpdate (some ⟨k⟩) store env s).state.versionFile = some rman ∧
    (applyUpdate (some ⟨k⟩) store env s).state.container = some ⟨b, true⟩ := by
  rw [applyUpdate_eq_verify (some ⟨k⟩) store env s rman b
        (sign ⟨k⟩ (sha256 rman)) (sign ⟨k⟩ (sha256 b)) hm hb hbs hms hdiff]
  have h1 : opensslVerify (some ⟨k⟩) (sign ⟨k⟩ (sha256 rman)) (sha256 rman) = true := by
    rw [opensslVerify_some, verify_eq_true_iff]
  have h2 : opensslVerify (some ⟨k⟩) (sign ⟨k⟩ (sha256 b)) (sha256 b) = true := by
    rw [opensslVerify_some, verify_eq_true_iff]
  simp [verifySection, h1, h2, deploySection, hload, hrun]

/-- Witness for C9: a device whose record says 2024-06-01 accepts a correctly
signed release stamped 2020-01-01 (a rollback) and overwrites its record with
the older manifest. -/
theorem string_compare_rollback_witness :
    (applyUpdate (some ⟨0⟩) (publish ⟨0⟩ "oldbundle" ⟨2020, 1, 1, 0, 0, 0⟩)
        ⟨true, true, true⟩
        ⟨some (manifestFor "2024-06-01T12:00:00Z"), some ⟨"newbundle", true⟩⟩).outcome
      = Outcome.Updated ∧
    (applyUpdate (some ⟨0⟩) (publish ⟨0⟩ "oldbundle" ⟨2020, 1, 1, 0, 0, 0⟩)
        ⟨true, true, true⟩
        ⟨some (manifestFor "2024-06-01T12:00:00Z"), some ⟨"newbundle", true⟩⟩).state.versionFile
      = some (manifestFor (renderRFC3339 ⟨2020, 1, 1, 0, 0, 0⟩)) ∧
    (applyUpdate (some ⟨0⟩) (publish ⟨0⟩ "oldbundle" ⟨2020, 1, 1, 0, 0, 0⟩)
        ⟨true, true, true⟩
        ⟨some (manifestFor "2024-06-01T12:00:00Z"), some ⟨"newbundle", true⟩⟩).state.container
      = some ⟨"oldbundle", true⟩ :=
  string_compare_rollback 0 (publish ⟨0⟩ "oldbundle" ⟨2020, 1, 1, 0, 0, 0⟩)
    ⟨true, true, true⟩
    ⟨some (manifestFor "2024-06-01T12:00:00Z"), some ⟨"newbundle", true⟩⟩
    (manifestFor (renderRFC3339 ⟨2020, 1, 1, 0, 0, 0⟩)) "oldbundle"
    rfl rfl rfl rfl (by decide) rfl rfl

/-- Counterexample for C2: with a prior running unit and a valid new release
whose `docker run` fails, the record is retained but the prior container has
already been stopped and removed, so it is not queryable any more — refuting
"the prior unit (if any) remains queryable as not-replaced". -/
theorem prior_unit_removed_counterexample :
    (applyUpdate (some ⟨0⟩) (publish ⟨0⟩ "newbundle" ⟨2025, 1, 2, 3, 4, 5⟩)
        ⟨true, true, false⟩
        ⟨some (manifestFor "2024-01-01T00:00:00Z"), some ⟨"oldimage", true⟩⟩).outcome
      = Outcome.FailedStart ∧
    (applyUpdate (some ⟨0⟩) (publish ⟨0⟩ "newbundle" ⟨2025, 1, 2, 3, 4, 5⟩)
        ⟨true, true, false⟩
        ⟨some (manifestFor "2024-01-01T00:00:00Z"), some ⟨"oldimage", true⟩⟩).state.versionFile
      = some (manifestFor "2024-01-01T00:00:00Z") ∧
    (applyUpdate (some ⟨0⟩) (publish ⟨0⟩ "newbundle" ⟨2025, 1, 2, 3, 4, 5⟩)
        ⟨true, true, false⟩
        ⟨some (manifestFor "2024-01-01T00:00:00Z"), some ⟨"oldimage", true⟩⟩).state.container
      = none := by decide

/-- Counterexample for C5: a corrupted local record is not parsed as the
epoch: against a remote release stamped exactly with the epoch instant, an
absent record yields `NoOp` (instant treated as epoch) while a corrupted
record takes the full update path — so corruption is not treated as
"instant = epoch". -/
theorem corrupt_record_not_epoch_counterexample :
    readLocalTs (some "garbage") ≠ epochTs ∧
    (applyUpdate (some ⟨0⟩) (publish ⟨0⟩ "b" ⟨1970, 1, 1, 0, 0, 0⟩)
        ⟨true, true, true⟩ ⟨some "garbage", none⟩).outcome ≠ Outcome.NoOp ∧
    (applyUpdate (some ⟨0⟩) (publish ⟨0⟩ "b" ⟨1970, 1, 1, 0, 0, 0⟩)
        ⟨true, true, true⟩ ⟨none, none⟩).outcome = Outcome.NoOp := by decide

/-- Counterexample for C6: with the public key missing, a perfectly valid
signed release produces exactly the same terminal outcome
(`Rejected(manifest_signature_invalid)`, exit 1) as an ordinary tampered
manifest signature does with the key present — the missing key is not a
distinguishable fatal configuration error. -/
theorem missing_pubkey_counterexample :
    (applyUpdate none (publish ⟨0⟩ "b" ⟨2025, 1, 1, 0, 0, 0⟩)
        ⟨true, true, true⟩ ⟨none, none⟩).outcome = Outcome.RejectedManifestSig ∧
    (applyUpdate (some ⟨0⟩)
        ⟨some (manifestFor "2025-01-01T00:00:00Z"), some "b",
         some (sign ⟨0⟩ (sha256 "b")),
         some ⟨1, sha256 (manifestFor "2025-01-01T00:00:00Z")⟩⟩
        ⟨true, true, true⟩ ⟨none, none⟩).outcome = Outcome.RejectedManifestSig ∧
    exitCode Outcome.RejectedManifestSig = 1 := by decide

/-- Counterexample for C7: when the remote manifest fetch fails, the script
exits without any cleanup, and the (empty) `wget -O` target
`remote_version.yaml` is left behind — a terminal path that does not discard
its temporary objects. -/
theorem fetch_failure_leftover_counterexample :
    (applyUpdate (some ⟨0⟩) ⟨none, none, none, none⟩ ⟨true, true, true⟩
        ⟨none, none⟩).outcome = Outcome.FailedFetch ∧
    (applyUpdate (some ⟨0⟩) ⟨none, none, none, none⟩ ⟨true, true, true⟩
        ⟨none, none⟩).temps ≠ Temps.clean ∧
    (applyUpdate (some ⟨0⟩) ⟨none, none, none, none⟩ ⟨true, true, true⟩
        ⟨none, none⟩).temps.remoteManifest = true := by decide

/-- Exhaustive case analysis of one `edge_deploy.sh` run: every terminal
branch with its outcome, resulting durable state and leftover temporaries. -/
lemma applyUpdate_cases (pk : Option PubKey) (store : RemoteStore) (env : Env)
    (s : DeviceState) :
    ((applyUpdate pk store env s).outcome = Outcome.FailedFetch ∧
      (applyUpdate pk store env s).state = s ∧
      (applyUpdate pk store env s).temps = ⟨true, false, false, false, false, false⟩) ∨
    ((applyUpdate pk store env s).outcome = Outcome.NoOp ∧
      (applyUpdate pk store env s).state.versionFile = s.versionFile ∧
      (applyUpdate pk store env s).state.container.map Container.image
        = s.container.map Container.image ∧
      (applyUpdate pk store env s).temps = Temps.clean) ∨
    ((applyUpdate pk store env s).outcome = Outcome.FailedFetchArtifact ∧
      (applyUpdate pk store env s).state = s ∧
      (applyUpdate pk store env s).temps.remoteManifest = true) ∨
    (((applyUpdate pk store env s).outcome = Outcome.RejectedManifestSig ∨
        (applyUpdate pk store env s).outcome = Outcome.RejectedBundleSig) ∧
      (applyUpdate pk store env s).state = s ∧
      (applyUpdate pk store env s).temps = Temps.clean) ∨
    ((applyUpdate pk store env s).outcome = Outcome.FailedStart ∧
      (applyUpdate pk store env s).state = ⟨s.versionFile, none⟩ ∧
      (applyUpdate pk store env s).temps = Temps.allPresent) ∨
    ((applyUpdate pk store env s).outcome = Outcome.Updated ∧
      (applyUpdate pk store env s).temps = Temps.clean ∧
      ∃ rman b, store.manifest = some rman ∧ store.bundle = some b ∧
        (applyUpdate pk store env s).state = ⟨some rman, some ⟨b, true⟩⟩) := by
  obtain ⟨om, ob, obs, oms⟩ := store
  obtain ⟨vf, cont⟩ := s
  cases om with
  | none =>
    left
    exact ⟨rfl, rfl, rfl⟩
  | some rman =>
    by_cases heq : grepCut rman = readLocalTs vf
    · right; left
      rw [applyUpdate_eq_noop pk _ env _ rman rfl heq]
      exact ⟨noopSection_outcome env _, noopSection_versionFile env _,
        noopSection_image env _, by unfold noopSection; split <;> rfl⟩
    · have hred : applyUpdate pk ⟨some rman, ob, obs, oms⟩ env ⟨vf, cont⟩
          = downloadSection pk ⟨some rman, ob, obs, oms⟩ rman env ⟨vf, cont⟩ := by
        simp [applyUpdate, if_neg heq]
      rw [hred]
      cases ob with
      | none =>
        right; right; left
        exact ⟨rfl, rfl, rfl⟩
      | some b =>
        cases obs with
        | none =>
          right; right; left
          exact ⟨rfl, rfl, rfl⟩
        | some bsig =>
          cases oms with
          | none =>
            right; right; left
            exact ⟨rfl, rfl, rfl⟩
          | some msig =>
            have hred2 : downloadSection pk ⟨some rman, some b, some bsig, some msig⟩
                rman env ⟨vf, cont⟩
                = verifySection pk rman b msig bsig env ⟨vf, cont⟩ := rfl
            rw [hred2]
            by_cases hv1 : opensslVerify pk msig (sha256 rman) = false
            · right; right; right; left
              refine ⟨Or.inl ?_, ?_, ?_⟩ <;> simp [verifySection, hv1]
            · by_cases hv2 : opensslVerify pk bsig (sha256 b) = false
              · right; right; right; left
                refine ⟨Or.inr ?_, ?_, ?_⟩ <;> simp [verifySection, hv1, hv2]
              · have hred3 : verifySection pk rman b msig bsig env ⟨vf, cont⟩
                    = deploySection rman b env ⟨vf, cont⟩ := by
                  simp [verifySection, hv1, hv2]
                rw [hred3]
                by_cases hl : env.loadOk = false
                · right; right; right; right; left
                  refine ⟨?_, ?_, ?_⟩ <;> simp [deploySection, hl]
                · by_cases hr : env.runOk = false
                  · right; right; right; right; left
                    refine ⟨?_, ?_, ?_⟩ <;> simp [deploySection, hl, hr]
                  · right; right; right; right; right
                    refine ⟨?_, ?_, rman, b, rfl, rfl, ?_⟩ <;>
                      simp [deploySection, hl, hr]

/-- C2 (amended): the Local Version Record is overwritten only on the success
path — whenever it changes, the run ended `Updated` and the new Deployment
Unit built from the fetched bundle is running.  If the `docker load`/`docker
run` start step fails, the record does retain the prior instant, but the prior
Deployment Unit has already been stopped and removed before the start step, so
no prior unit remains queryable. -/
theorem commit_after_start (pk : Option PubKey) (store : RemoteStore)
    (env : Env) (s : DeviceState) :
    ((applyUpdate pk store env s).state.versionFile ≠ s.versionFile →
      (applyUpdate pk store env s).outcome = Outcome.Updated ∧
      ∃ rman b, store.manifest = some rman ∧ store.bundle = some b ∧
        (applyUpdate pk store env s).state = ⟨some rman, some ⟨b, true⟩⟩) ∧
    ((applyUpdate pk store env s).outcome = Outcome.FailedStart →
      (applyUpdate pk store env s).state.versionFile = s.versionFile ∧
      (applyUpdate pk store env s).state.container = none) := by
  rcases applyUpdate_cases pk store env s with
    ⟨ho, hs, _⟩ | ⟨ho, hvf, _, _⟩ | ⟨ho, hs, _⟩ | ⟨ho, hs, _⟩ | ⟨ho, hs, _⟩ |
    ⟨ho, _, rman, b, hm, hb, hs⟩
  · exact ⟨fun hne => absurd (by rw [hs]) hne, fun hf => by rw [ho] at hf; cases hf⟩
  · exact ⟨fun hne => absurd hvf hne, fun hf => by rw [ho] at hf; cases hf⟩
  · exact ⟨fun hne => absurd (by rw [hs]) hne, fun hf => by rw [ho] at hf; cases hf⟩
  · exact ⟨fun hne => absurd (by rw [hs]) hne, fun hf => by
      rcases ho with ho | ho <;> rw [ho] at hf <;> cases hf⟩
  · exact ⟨fun hne => absurd (by rw [hs]) hne, fun _ => by rw [hs]; exact ⟨rfl, rfl⟩⟩
  · exact ⟨fun _ => ⟨ho, rman, b, hm, hb, hs⟩, fun hf => by rw [ho] at hf; cases hf⟩

/-- Witness for C2 (amended): a concrete failed start retains the record and
leaves no container. -/
theorem commit_after_start_witness :
    (applyUpdate (some ⟨0⟩) (publish ⟨0⟩ "newbundle" ⟨2025, 1, 2, 3, 4, 5⟩)
        ⟨true, true, false⟩
        ⟨some (manifestFor "2024-01-01T00:00:00Z"), some ⟨"oldimage", true⟩⟩).state.versionFile
      = some (manifestFor "2024-01-01T00:00:00Z") ∧
    (applyUpdate (some ⟨0⟩) (publish ⟨0⟩ "newbundle" ⟨2025, 1, 2, 3, 4, 5⟩)
        ⟨true, true, false⟩
        ⟨some (manifestFor "2024-01-01T00:00:00Z"), some ⟨"oldimage", true⟩⟩).state.container
      = none :=
  (commit_after_start (some ⟨0⟩) (publish ⟨0⟩ "newbundle" ⟨2025, 1, 2, 3, 4, 5⟩)
      ⟨true, true, false⟩
      ⟨some (manifestFor "2024-01-01T00:00:00Z"), some ⟨"oldimage", true⟩⟩).2
    (by decide)

/-- C7 (amended): the `NoOp`, `Updated` and both `Rejected` terminal paths
discard every temporary downloaded object; but the fetch-failure paths do not
clean up — in particular a failed remote manifest fetch leaves the `wget -O`
target `remote_version.yaml` behind. -/
theorem cleanup_on_terminal (pk : Option PubKey) (store : RemoteStore)
    (env : Env) (s : DeviceState) :
    ((applyUpdate pk store env s).outcome = Outcome.NoOp ∨
      (applyUpdate pk store env s).outcome = Outcome.Updated ∨
      (applyUpdate pk store env s).outcome = Outcome.RejectedManifestSig ∨
      (applyUpdate pk store env s).outcome = Outcome.RejectedBundleSig →
        (applyUpdate pk store env s).temps = Temps.clean) ∧
    ((applyUpdate pk store env s).outcome = Outcome.FailedFetch →
      (applyUpdate pk store env s).temps.remoteManifest = true) := by
  rcases applyUpdate_cases pk store env s with
    ⟨ho, _, ht⟩ | ⟨ho, _, _, ht⟩ | ⟨ho, _, ht⟩ | ⟨ho, _, ht⟩ | ⟨ho, _, ht⟩ |
    ⟨ho, ht, _, _, _, _, _⟩
  · refine ⟨fun hc => ?_, fun _ => by rw [ht]⟩
    rw [ho] at hc
    rcases hc with h | h | h | h <;> cases h
  · exact ⟨fun _ => ht, fun hf => by rw [ho] at hf; cases hf⟩
  · refine ⟨fun hc => ?_, fun hf => by rw [ho] at hf; cases hf⟩
    rw [ho] at hc
    rcases hc with h | h | h | h <;> cases h
  · exact ⟨fun _ => ht, fun hf => by
      rcases ho with ho | ho <;> rw [ho] at hf <;> cases hf⟩
  · refine ⟨fun hc => ?_, fun hf => by rw [ho] at hf; cases hf⟩
    rw [ho] at hc
    rcases hc with h | h | h | h <;> cases h
  · exact ⟨fun _ => ht, fun hf => by rw [ho] at hf; cases hf⟩

/-- Witness for C7 (amended): a successful update run leaves no temporaries. -/
theorem cleanup_on_terminal_witness :
    (applyUpdate (some ⟨0⟩) (publish ⟨0⟩ "b" ⟨2024, 5, 6, 7, 8, 9⟩)
        ⟨true, true, true⟩ ⟨none, none⟩).temps = Temps.clean :=
  (cleanup_on_terminal (some ⟨0⟩) (publish ⟨0⟩ "b" ⟨2024, 5, 6, 7, 8, 9⟩)
      ⟨true, true, true⟩ ⟨none, none⟩).1 (Or.inr (Or.inl (by decide)))

/-- C3: when the remote manifest timestamp equals the Local Version Record
timestamp, two back-to-back invocations of `applyUpdate` both yield `NoOp`;
across both runs the Local Version Record and the Deployment Unit (its
existence and image) are unchanged, and when the unit was already running the
whole device state is literally unchanged by both runs (the only thing the
NoOp path may ever touch is restarting a stopped unit, per the self-heal
behaviour). -/
theorem noop_idempotent (pk : Option PubKey) (store : RemoteStore) (env : Env)
    (s : DeviceState) (rman : String)
    (hm : store.manifest = some rman)
    (heq : grepCut rman = readLocalTs s.versionFile) :
    (applyUpdate pk store env s).outcome = Outcome.NoOp ∧
    (applyUpdate pk store env (applyUpdate pk store env s).state).outcome
      = Outcome.NoOp ∧
    (applyUpdate pk store env (applyUpdate pk store env s).state).state.versionFile
      = s.versionFile ∧
    (applyUpdate pk store env (applyUpdate pk store env s).state).state.container.map
        Container.image = s.container.map Container.image ∧
    (containerRunning s = true →
      (applyUpdate pk store env s).state = s ∧
      (applyUpdate pk store env (applyUpdate pk store env s).state).state = s) := by
  have h1 : applyUpdate pk store env s = noopSection env s :=
    applyUpdate_eq_noop pk store env s rman hm heq
  have heq2 : grepCut rman = readLocalTs (noopSection env s).state.versionFile := by
    rw [noopSection_versionFile]
    exact heq
  have h2 : applyUpdate pk store env (noopSection env s).state
      = noopSection env (noopSection env s).state :=
    applyUpdate_eq_noop pk store env _ rman hm heq2
  rw [h1, h2]
  refine ⟨noopSection_outcome env s, noopSection_outcome env _, ?_, ?_, ?_⟩
  · rw [noopSection_versionFile, noopSection_versionFile]
  · rw [noopSection_image, noopSection_image]
  · intro hr
    have e1 : (noopSection env s).state = s := noopSection_state_of_running env s hr
    refine ⟨e1, ?_⟩
    rw [e1]
    exact noopSection_state_of_running env s hr

/-- Witness for C3: a device already at the published instant stays `NoOp`
and unchanged across two invocations. -/
theorem noop_idempotent_witness :
    (applyUpdate (some ⟨0⟩) (publish ⟨0⟩ "b" ⟨2024, 1, 1, 0, 0, 0⟩)
        ⟨true, true, true⟩
        ⟨some (manifestFor (renderRFC3339 ⟨2024, 1, 1, 0, 0, 0⟩)),
         some ⟨"b", true⟩⟩).outcome = Outcome.NoOp ∧
    (applyUpdate (some ⟨0⟩) (publish ⟨0⟩ "b" ⟨2024, 1, 1, 0, 0, 0⟩)
        ⟨true, true, true⟩
        (applyUpdate (some ⟨0⟩) (publish ⟨0⟩ "b" ⟨2024, 1, 1, 0, 0, 0⟩)
          ⟨true, true, true⟩
          ⟨some (manifestFor (renderRFC3339 ⟨2024, 1, 1, 0, 0, 0⟩)),
           some ⟨"b", true⟩⟩).state).outcome = Outcome.NoOp ∧
    (applyUpdate (some ⟨0⟩) (publish ⟨0⟩ "b" ⟨2024, 1, 1, 0, 0, 0⟩)
        ⟨true, true, true⟩
        (applyUpdate (some ⟨0⟩) (publish ⟨0⟩ "b" ⟨2024, 1, 1, 0, 0, 0⟩)
          ⟨true, true, true⟩
          ⟨some (manifestFor (renderRFC3339 ⟨2024, 1, 1, 0, 0, 0⟩)),
           some ⟨"b", true⟩⟩).state).state.versionFile
      = some (manifestFor (renderRFC3339 ⟨2024, 1, 1, 0, 0, 0⟩)) ∧
    (applyUpdate (some ⟨0⟩) (publish ⟨0⟩ "b" ⟨2024, 1, 1, 0, 0, 0⟩)
        ⟨true, true, true⟩
        (applyUpdate (some ⟨0⟩) (publish ⟨0⟩ "b" ⟨2024, 1, 1, 0, 0, 0⟩)
          ⟨true, true, true⟩
          ⟨some (manifestFor (renderRFC3339 ⟨2024, 1, 1, 0, 0, 0⟩)),
           some ⟨"b", true⟩⟩).state).state.container.map Container.image
      = (some ⟨"b", true⟩ : Option Container).map Container.image ∧
    (containerRunning ⟨some (manifestFor (renderRFC3339 ⟨2024, 1, 1, 0, 0, 0⟩)),
        some ⟨"b", true⟩⟩ = true →
      (applyUpdate (some ⟨0⟩) (publish ⟨0⟩ "b" ⟨2024, 1, 1, 0, 0, 0⟩)
          ⟨true, true, true⟩
          ⟨some (manifestFor (renderRFC3339 ⟨2024, 1, 1, 0, 0, 0⟩)),
           some ⟨"b", true⟩⟩).state
        = ⟨some (manifestFor (renderRFC3339 ⟨2024, 1, 1, 0, 0, 0⟩)),
           some ⟨"b", true⟩⟩ ∧
      (applyUpdate (some ⟨0⟩) (publish ⟨0⟩ "b" ⟨2024, 1, 1, 0, 0, 0⟩)
          ⟨true, true, true⟩
          (applyUpdate (some ⟨0⟩) (publish ⟨0⟩ "b" ⟨2024, 1, 1, 0, 0, 0⟩)
            ⟨true, true, true⟩
            ⟨some (manifestFor (renderRFC3339 ⟨2024, 1, 1, 0, 0, 0⟩)),
             some ⟨"b", true⟩⟩).state).state
        = ⟨some (manifestFor (renderRFC3339 ⟨2024, 1, 1, 0, 0, 0⟩)),
           some ⟨"b", true⟩⟩) :=
  noop_idempotent (some ⟨0⟩) (publish ⟨0⟩ "b" ⟨2024, 1, 1, 0, 0, 0⟩)
    ⟨true, true, true⟩
    ⟨some (manifestFor (renderRFC3339 ⟨2024, 1, 1, 0, 0, 0⟩)), some ⟨"b", true⟩⟩
    (manifestFor (renderRFC3339 ⟨2024, 1, 1, 0, 0, 0⟩)) rfl (by decide)

/-- C4: with a matching record but a stopped (or absent) Deployment Unit, the
run is the self-heal `NoOp` path: its whole event trace is the manifest fetch
followed by `docker start` — no fetch of the artifact bundle or of either
signature file, and no signature verification — and when `docker start`
succeeds the existing container is running again. -/
theorem self_heal_no_refetch (pk : Option PubKey) (store : RemoteStore)
    (env : Env) (s : DeviceState) (rman : String)
    (hm : store.manifest = some rman)
    (heq : grepCut rman = readLocalTs s.versionFile)
    (hstopped : containerRunning s = false) :
    (applyUpdate pk store env s).outcome = Outcome.NoOp ∧
    (applyUpdate pk store env s).events
      = [Event.fetchManifest, Event.dockerStart] ∧
    Event.fetchBundle ∉ (applyUpdate pk store env s).events ∧
    Event.fetchBundleSig ∉ (applyUpdate pk store env s).events ∧
    Event.fetchManifestSig ∉ (applyUpdate pk store env s).events ∧
    Event.verifyManifestSig ∉ (applyUpdate pk store env s).events ∧
    Event.verifyBundleSig ∉ (applyUpdate pk store env s).events ∧
    (env.startOk = true → (applyUpdate pk store env s).state = startContainer s) := by
  rw [applyUpdate_eq_noop pk store env s rman hm heq]
  unfold noopSection
  rw [if_neg (by rw [hstopped]; exact Bool.false_ne_true)]
  refine ⟨rfl, rfl, by simp, by simp, by simp, by simp, by simp, ?_⟩
  intro hst
  show (if env.startOk = true then startContainer s else s) = startContainer s
  rw [if_pos hst]

/-- Witness for C4: a stopped container at the current release is restarted
with no bundle/signature fetch events, even against a store holding nothing
but the manifest. -/
theorem self_heal_no_refetch_witness :
    (applyUpdate (some ⟨0⟩)
        ⟨some (manifestFor "2024-01-01T00:00:00Z"), none, none, none⟩
        ⟨true, true, true⟩
        ⟨some (manifestFor "2024-01-01T00:00:00Z"), some ⟨"b", false⟩⟩).outcome
      = Outcome.NoOp ∧
    (applyUpdate (some ⟨0⟩)
        ⟨some (manifestFor "2024-01-01T00:00:00Z"), none, none, none⟩
        ⟨true, true, true⟩
        ⟨some (manifestFor "2024-01-01T00:00:00Z"), some ⟨"b", false⟩⟩).events
      = [Event.fetchManifest, Event.dockerStart] ∧
    Event.fetchBundle ∉ (applyUpdate (some ⟨0⟩)
        ⟨some (manifestFor "2024-01-01T00:00:00Z"), none, none, none⟩
        ⟨true, true, true⟩
        ⟨some (manifestFor "2024-01-01T00:00:00Z"), some ⟨"b", false⟩⟩).events ∧
    Event.fetchBundleSig ∉ (applyUpdate (some ⟨0⟩)
        ⟨some (manifestFor "2024-01-01T00:00:00Z"), none, none, none⟩
        ⟨true, true, true⟩
        ⟨some (manifestFor "2024-01-01T00:00:00Z"), some ⟨"b", false⟩⟩).events ∧
    Event.fetchManifestSig ∉ (applyUpdate (some ⟨0⟩)
        ⟨some (manifestFor "2024-01-01T00:00:00Z"), none, none, none⟩
        ⟨true, true, true⟩
        ⟨some (manifestFor "2024-01-01T00:00:00Z"), some ⟨"b", false⟩⟩).events ∧
    Event.verifyManifestSig ∉ (applyUpdate (some ⟨0⟩)
        ⟨some (manifestFor "2024-01-01T00:00:00Z"), none, none, none⟩
        ⟨true, true, true⟩
        ⟨some (manifestFor "2024-01-01T00:00:00Z"), some ⟨"b", false⟩⟩).events ∧
    Event.verifyBundleSig ∉ (applyUpdate (some ⟨0⟩)
        ⟨some (manifestFor "2024-01-01T00:00:00Z"), none, none, none⟩
        ⟨true, true, true⟩
        ⟨some (manifestFor "2024-01-01T00:00:00Z"), some ⟨"b", false⟩⟩).events ∧
    ((⟨true, true, true⟩ : Env).startOk = true →
      (applyUpdate (some ⟨0⟩)
          ⟨some (manifestFor "2024-01-01T00:00:00Z"), none, none, none⟩
          ⟨true, true, true⟩
          ⟨some (manifestFor "2024-01-01T00:00:00Z"), some ⟨"b", false⟩⟩).state
        = startContainer
            ⟨some (manifestFor "2024-01-01T00:00:00Z"), some ⟨"b", false⟩⟩) :=
  self_heal_no_refetch (some ⟨0⟩)
    ⟨some (manifestFor "2024-01-01T00:00:00Z"), none, none, none⟩
    ⟨true, true, true⟩
    ⟨some (manifestFor "2024-01-01T00:00:00Z"), some ⟨"b", false⟩⟩
    (manifestFor "2024-01-01T00:00:00Z") rfl (by decide) rfl

lemma applyUpdate_eq_download (pk : Option PubKey) (store : RemoteStore)
    (env : Env) (s : DeviceState) (rman : String)
    (hm : store.manifest = some rman)
    (hne : grepCut rman ≠ readLocalTs s.versionFile) :
    applyUpdate pk store env s = downloadSection pk store rman env s := by
  simp [applyUpdate, hm, if_neg hne]

lemma downloadSection_fetchBundle (pk : Option PubKey) (store : RemoteStore)
    (rman : String) (env : Env) (s : DeviceState) :
    Event.fetchBundle ∈ (downloadSection pk store rman env s).events ∧
    (downloadSection pk store rman env s).outcome ≠ Outcome.FailedFetch := by
  obtain ⟨om, ob, obs, oms⟩ := store
  cases ob with
  | none => exact ⟨by simp [downloadSection], by simp [downloadSection]⟩
  | some b =>
    cases obs with
    | none => exact ⟨by simp [downloadSection], by simp [downloadSection]⟩
    | some bsig =>
      cases oms with
      | none => exact ⟨by simp [downloadSection], by simp [downloadSection]⟩
      | some msig =>
        have hred : downloadSection pk ⟨om, some b, some bsig, some msig⟩ rman env s
            = verifySection pk rman b msig bsig env s := rfl
        rw [hred]
        unfold verifySection deploySection
        constructor
        · split_ifs <;> simp [List.mem_append]
        · split_ifs <;> simp

/-- C5 (amended): an absent local record file parses as the epoch instant
("never updated").  A corrupted record file does not make the run fail either:
the `grep | cut` pipeline exits 0 and the local instant becomes whatever it
extracts — for contents without a `last_build` line the empty string, not the
epoch — and whenever the remote timestamp differs from that parsed value the
run proceeds to the full download/verify/apply path.  (As stated, the claim's
"instant = epoch" for corrupted contents is refuted by
`corrupt_record_not_epoch_counterexample`.) -/
theorem record_absent_or_corrupt (pk : Option PubKey) (store : RemoteStore)
    (env : Env) (vf : Option String) (cont : Option Container) (rman : String)
    (hm : store.manifest = some rman)
    (hne : grepCut rman ≠ readLocalTs vf) :
    readLocalTs none = epochTs ∧
    readLocalTs (some "no timestamp here") = "" ∧
    Event.fetchBundle ∈ (applyUpdate pk store env ⟨vf, cont⟩).events ∧
    (applyUpdate pk store env ⟨vf, cont⟩).outcome ≠ Outcome.FailedFetch := by
  have hred : applyUpdate pk store env ⟨vf, cont⟩
      = downloadSection pk store rman env ⟨vf, cont⟩ :=
    applyUpdate_eq_download pk store env ⟨vf, cont⟩ rman hm hne
  rw [hred]
  exact ⟨rfl, by decide, (downloadSection_fetchBundle pk store rman env _).1,
    (downloadSection_fetchBundle pk store rman env _).2⟩

/-- Witness for C5 (amended): a device with a corrupted record (parsed local
instant `""`) facing an epoch-stamped remote release proceeds to download the
bundle instead of failing. -/
theorem record_absent_or_corrupt_witness :
    readLocalTs none = epochTs ∧
    readLocalTs (some "no timestamp here") = "" ∧
    Event.fetchBundle ∈ (applyUpdate (some ⟨0⟩)
        (publish ⟨0⟩ "b" ⟨1970, 1, 1, 0, 0, 0⟩) ⟨true, true, true⟩
        ⟨some "no timestamp here", none⟩).events ∧
    (applyUpdate (some ⟨0⟩) (publish ⟨0⟩ "b" ⟨1970, 1, 1, 0, 0, 0⟩)
        ⟨true, true, true⟩ ⟨some "no timestamp here", none⟩).outcome
      ≠ Outcome.FailedFetch :=
  record_absent_or_corrupt (some ⟨0⟩) (publish ⟨0⟩ "b" ⟨1970, 1, 1, 0, 0, 0⟩)
    ⟨true, true, true⟩ (some "no timestamp here") none
    (manifestFor (renderRFC3339 ⟨1970, 1, 1, 0, 0, 0⟩)) rfl (by decide)

/-- C6 (amended): a missing or unreadable public key is not a distinct fatal
configuration error: `openssl pkeyutl -verify -pubin -inkey` merely fails, so
on any divergent-timestamp run the script takes the ordinary
`Rejected(manifest_signature_invalid)` path — exit code 1, temporaries
discarded, Deployment Unit and Local Version Record untouched — exactly the
terminal behaviour of a tampered signature, with nothing distinguishing the
two for the caller.  (The original claim is refuted by
`missing_pubkey_counterexample`.) -/
theorem missing_pubkey_rejected (store : RemoteStore) (env : Env)
    (s : DeviceState) (rman b : String) (msig bsig : Sig)
    (hm : store.manifest = some rman) (hb : store.bundle = some b)
    (hbs : store.bundleSig = some bsig) (hms : store.manifestSig = some msig)
    (hdiff : grepCut rman ≠ readLocalTs s.versionFile) :
    (applyUpdate none store env s).outcome = Outcome.RejectedManifestSig ∧
    (applyUpdate none store env s).state = s ∧
    (applyUpdate none store env s).temps = Temps.clean ∧
    exitCode (applyUpdate none store env s).outcome = 1 := by
  rw [applyUpdate_eq_verify none store env s rman b msig bsig hm hb hbs hms hdiff]
  simp [verifySection, opensslVerify, exitCode]

/-- Witness for C6 (amended): a missing key rejects a perfectly valid signed
release through the ordinary signature-failure path. -/
theorem missing_pubkey_rejected_witness :
    (applyUpdate none (publish ⟨0⟩ "b" ⟨2025, 1, 1, 0, 0, 0⟩) ⟨true, true, true⟩
        ⟨none, none⟩).outcome = Outcome.RejectedManifestSig ∧
    (applyUpdate none (publish ⟨0⟩ "b" ⟨2025, 1, 1, 0, 0, 0⟩) ⟨true, true, true⟩
        ⟨none, none⟩).state = ⟨none, none⟩ ∧
    (applyUpdate none (publish ⟨0⟩ "b" ⟨2025, 1, 1, 0, 0, 0⟩) ⟨true, true, true⟩
        ⟨none, none⟩).temps = Temps.clean ∧
    exitCode (applyUpdate none (publish ⟨0⟩ "b" ⟨2025, 1, 1, 0, 0, 0⟩)
        ⟨true, true, true⟩ ⟨none, none⟩).outcome = 1 :=
  missing_pubkey_rejected (publish ⟨0⟩ "b" ⟨2025, 1, 1, 0, 0, 0⟩)
    ⟨true, true, true⟩ ⟨none, none⟩
    (manifestFor (renderRFC3339 ⟨2025, 1, 1, 0, 0, 0⟩)) "b"
    (sign ⟨0⟩ (sha256 (manifestFor (renderRFC3339 ⟨2025, 1, 1, 0, 0, 0⟩))))
    (sign ⟨0⟩ (sha256 "b")) rfl rfl rfl rfl (by decide)

/-- C10: on the `NoOp` self-heal path, when the Deployment Unit is not
running and the `docker start` attempt fails, the failure is swallowed by
`|| echo "Failed to start container."`: the run still terminates `NoOp` with
exit code 0, the device state is unchanged, and the restart attempt shows up
only in the event trace — nothing is reported to the caller. -/
theorem self_heal_failure_still_noop (pk : Option PubKey) (store : RemoteStore)
    (env : Env) (s : DeviceState) (rman : String)
    (hm : store.manifest = some rman)
    (heq : grepCut rman = readLocalTs s.versionFile)
    (hstopped : containerRunning s = false)
    (hfail : env.startOk = false) :
    (applyUpdate pk store env s).outcome = Outcome.NoOp ∧
    exitCode (applyUpdate pk store env s).outcome = 0 ∧
    (applyUpdate pk store env s).state = s ∧
    Event.dockerStart ∈ (applyUpdate pk store env s).events := by
  rw [applyUpdate_eq_noop pk store env s rman hm heq]
  unfold noopSection
  rw [if_neg (by rw [hstopped]; exact Bool.false_ne_true)]
  refine ⟨rfl, rfl, ?_, by simp⟩
  show (if env.startOk = true then startContainer s else s) = s
  rw [hfail]
  rfl

/-- Witness for C10: a stopped container whose restart fails still ends the
run as `NoOp` with exit 0 and an unchanged state. -/
theorem self_heal_failure_still_noop_witness :
    (applyUpdate (some ⟨0⟩)
        ⟨some (manifestFor "2024-01-01T00:00:00Z"), none, none, none⟩
        ⟨false, true, true⟩
        ⟨some (manifestFor "2024-01-01T00:00:00Z"), some ⟨"b", false⟩⟩).outcome
      = Outcome.NoOp ∧
    exitCode (applyUpdate (some ⟨0⟩)
        ⟨some (manifestFor "2024-01-01T00:00:00Z"), none, none, none⟩
        ⟨false, true, true⟩
        ⟨some (manifestFor "2024-01-01T00:00:00Z"), some ⟨"b", false⟩⟩).outcome
      = 0 ∧
    (applyUpdate (some ⟨0⟩)
        ⟨some (manifestFor "2024-01-01T00:00:00Z"), none, none, none⟩
        ⟨false, true, true⟩
        ⟨some (manifestFor "2024-01-01T00:00:00Z"), some ⟨"b", false⟩⟩).state
      = ⟨some (manifestFor "2024-01-01T00:00:00Z"), some ⟨"b", false⟩⟩ ∧
    Event.dockerStart ∈ (applyUpdate (some ⟨0⟩)
        ⟨some (manifestFor "2024-01-01T00:00:00Z"), none, none, none⟩
        ⟨false, true, true⟩
        ⟨some (manifestFor "2024-01-01T00:00:00Z"), some ⟨"b", false⟩⟩).events :=
  self_heal_failure_still_noop (some ⟨0⟩)
    ⟨some (manifestFor "2024-01-01T00:00:00Z"), none, none, none⟩
    ⟨false, true, true⟩
    ⟨some (manifestFor "2024-01-01T00:00:00Z"), some ⟨"b", false⟩⟩
    (manifestFor "2024-01-01T00:00:00Z") rfl (by decide) rfl rfl

end OTA
